import Mathlib

/-!
Verification of the streaming market-analytics pipeline:
`signal_analyzer.py` (lenient quorum engine), `signal_analyzer_strong.py`
(strict quorum engine), `bigmove_detector.py` (composite scorer) and the
connector / broadcast machinery of `app.py`.

Conventions of the shallow embedding:
* Python floats are embedded as rationals (`ℚ`); all arithmetic in the
  analyzed code paths is exact on the inputs the claims quantify over.
  The separate `PyFloat` type models non-finite floats where the claim
  is about NaN/Infinity handling (`to_num`).
* Python `round(x, n)` is embedded as round-half-to-even at `n` decimal
  digits (`pyRound`), `int(x)` as truncation toward zero (`pyTrunc`).
* A `collections.deque` with `maxlen=cap` is embedded as a list holding
  the most recent elements, with `pushBounded` as `append`.
* Per-symbol dictionary entries (`self.price_history[symbol]`, ...) are
  embedded as one state record per symbol; a key absent from the dict is
  the empty list / `none`, which is what lazy creation produces.
* Human-readable message strings accumulated by the analyzers (the
  `signals` description lists) carry no logic and are omitted from the
  embedded records; every field that feeds a comparison is kept.
-/

namespace Python01

/-- Bounded append: the semantics of `deque(maxlen=cap).append x`.
The result keeps the most recent `cap` elements. -/
def pushBounded {α : Type} (cap : ℕ) (xs : List α) (x : α) : List α :=
  let ys := xs ++ [x]
  ys.drop (ys.length - cap)

/-- Round half to even on rationals (the rounding mode of Python `round`). -/
def rhe (q : ℚ) : ℤ :=
  let f := ⌊q⌋
  let r := q - (f : ℚ)
  if r < 1/2 then f
  else if 1/2 < r then f + 1
  else if f % 2 = 0 then f else f + 1

/-- Embedding of Python `round(q, n)` for a non-negative digit count. -/
def pyRound (n : ℕ) (q : ℚ) : ℚ := (rhe (q * 10 ^ n) : ℚ) / 10 ^ n

/-- Embedding of Python `int(q)`: truncation toward zero. -/
def pyTrunc (q : ℚ) : ℤ := if 0 ≤ q then ⌊q⌋ else ⌈q⌉

/-- Arithmetic mean of a list, as computed by `sum(l) / len(l)` (0 on `[]`). -/
def listAvg (l : List ℚ) : ℚ := l.sum / (l.length : ℚ)

/-- Number of satisfied conditions in a condition list. -/
def countTrue (bs : List Bool) : ℕ := (bs.map Bool.toNat).sum

/-- Top-of-book quote (`marketLevel.bidAskQuote[0]`), numeric fields already
coerced by `to_num`. -/
structure Quote where
  bidP : ℚ
  askP : ℚ
deriving DecidableEq

/-- Decoded tick record as consumed by the two signal analyzers: every numeric
field holds the value `to_num` produces for it (0 when absent), `quotes` is
`marketLevel.bidAskQuote` (empty when absent) and `delta`, `gamma`, `iv` come
from the `optionGreeks` block. -/
structure Tick where
  tbq : ℚ
  tsq : ℚ
  ltp : ℚ
  ltq : ℚ
  oi : ℚ
  delta : ℚ
  gamma : ℚ
  iv : ℚ
  quotes : List Quote
deriving DecidableEq

/-! ## signal_analyzer.py — lenient `SignalAnalyzer` -/

/-- Per-symbol mutable state of `SignalAnalyzer` (`lookback` is the
`lookback_ticks` constructor argument, 5 by default). -/
structure SAState where
  lookback : ℕ
  price_history : List ℚ
  volume_history : List ℚ
  delta_history : List ℚ
  oi_history : List ℚ
  tick_count : ℕ
deriving DecidableEq

/-- Fresh analyzer state: no per-symbol dict has an entry yet. -/
def SAState.init (lookback : ℕ) : SAState :=
  ⟨lookback, [], [], [], [], 0⟩

/-- Result record of `calculate_ofi` (display-only `tbq`/`tsq` copies omitted). -/
structure OfiResult where
  value : ℚ
  signal : String
  strength : ℚ
deriving DecidableEq

/-- Embedding of `SignalAnalyzer.calculate_ofi`. -/
def calculate_ofi (tbq tsq : ℚ) : OfiResult :=
  if tbq + tsq = 0 then ⟨0, "NEUTRAL", 0⟩
  else
    let ofi := (tbq - tsq) / (tbq + tsq)
    if ofi > 1/2 then
      ⟨pyRound 4 ofi, "STRONG_BUY", pyRound 2 (min ((ofi - 1/2) * 2) 1)⟩
    else if ofi > 3/10 then
      ⟨pyRound 4 ofi, "MODERATE_BUY", pyRound 2 ((ofi - 3/10) / (2/10))⟩
    else if ofi < 0 then
      ⟨pyRound 4 ofi, "SELL_PRESSURE", pyRound 2 (min |ofi| 1)⟩
    else if ofi < 3/10 then
      ⟨pyRound 4 ofi, "NEUTRAL", pyRound 2 (3/10 - ofi)⟩
    else
      ⟨pyRound 4 ofi, "NEUTRAL", 0⟩

/-- Result record of `calculate_spread`. -/
structure SpreadResult where
  value : ℚ
  percentage : ℚ
  signal : String
  quality : ℕ
deriving DecidableEq

/-- Embedding of `SignalAnalyzer.calculate_spread`. -/
def calculate_spread (best_bid best_ask ltp : ℚ) : SpreadResult :=
  if ltp = 0 then ⟨0, 0, "UNKNOWN", 0⟩
  else
    let spread := best_ask - best_bid
    let spread_pct := spread / ltp * 100
    if spread_pct < 2/10 then ⟨pyRound 2 spread, pyRound 3 spread_pct, "EXCELLENT", 100⟩
    else if spread_pct < 5/10 then ⟨pyRound 2 spread, pyRound 3 spread_pct, "GOOD", 70⟩
    else ⟨pyRound 2 spread, pyRound 3 spread_pct, "CAUTION", 30⟩

/-- Result record of the lenient `calculate_momentum`. -/
structure MomentumResult where
  value : ℚ
  signal : String
  avg : ℚ
deriving DecidableEq

/-- Embedding of `SignalAnalyzer.calculate_momentum`: appends the price to the
symbol's window (capacity `lookback_ticks`), then computes
`(ltp - avg) / avg` guarded by `avg > 0`, returning neutral below 2 entries. -/
def calculate_momentum (s : SAState) (current_ltp : ℚ) : MomentumResult × SAState :=
  let ph := pushBounded s.lookback s.price_history current_ltp
  let s1 := { s with price_history := ph }
  let res :=
    if ph.length < 2 then (⟨0, "NEUTRAL", current_ltp⟩ : MomentumResult)
    else
      let avg_price := listAvg ph
      let momentum := if avg_price > 0 then (current_ltp - avg_price) / avg_price else 0
      let sig :=
        if momentum > 1/1000 then "BULLISH"
        else if momentum < -(1/1000) then "BEARISH"
        else "NEUTRAL"
      ⟨pyRound 5 momentum, sig, pyRound 2 avg_price⟩
  (res, s1)

/-- Result record of `calculate_volume_spike` (both engines). -/
structure VolumeSpikeResult where
  ratio : ℚ
  signal : String
  strength : ℚ
deriving DecidableEq

/-- Embedding of `SignalAnalyzer.calculate_volume_spike`: appends the volume to
the capacity-60 window, increments `tick_count`, and reports the ratio of the
current volume to the window average once 5 entries exist. -/
def calculate_volume_spike (s : SAState) (current_volume : ℤ) : VolumeSpikeResult × SAState :=
  let vh := pushBounded 60 s.volume_history (current_volume : ℚ)
  let s1 := { s with volume_history := vh, tick_count := s.tick_count + 1 }
  let res :=
    if vh.length < 5 then (⟨1, "NEUTRAL", 0⟩ : VolumeSpikeResult)
    else
      let avg_volume := listAvg vh
      let spike_ratio := if avg_volume > 0 then (current_volume : ℚ) / avg_volume else 1
      if spike_ratio ≥ 3 then
        ⟨pyRound 2 spike_ratio, "VERY_STRONG", pyRound 2 (min ((spike_ratio - 3) / 2) 1)⟩
      else if spike_ratio ≥ 2 then
        ⟨pyRound 2 spike_ratio, "STRONG_MOVE", pyRound 2 (spike_ratio - 2)⟩
      else
        ⟨pyRound 2 spike_ratio, "NORMAL", 0⟩
  (res, s1)

/-- Emitted BUY signal of the lenient engine (timestamp and the message list
omitted). -/
structure BuySignal where
  action : String
  symbol : String
  entry : ℚ
  confidence : ℚ
  signal_count : ℕ
deriving DecidableEq

/-- The five boolean conditions of `check_buy_signal`, each stated on the
state the source reads it from (the pieces of state the earlier conditions
mutate are disjoint from the ones the later conditions read). -/
def buyConds (s : SAState) (t : Tick) : List Bool :=
  let ofi_result := calculate_ofi t.tbq t.tsq
  let c1 : Bool := decide (ofi_result.value > 1/2)
  let c2 : Bool :=
    match t.quotes with
    | [] => false
    | q :: _ => decide (t.ltp ≥ q.askP ∧ q.askP > 0)
  let c3 : Bool := decide ((calculate_volume_spike s (pyTrunc t.ltq)).1.ratio > 2)
  let c4 : Bool :=
    match s.delta_history.getLast? with
    | none => false
    | some prev_delta => decide (t.delta > prev_delta)
  let c5 : Bool :=
    match s.oi_history.getLast? with
    | none => false
    | some prev_oi => decide (t.oi > prev_oi)
  [c1, c2, c3, c4, c5]

/-- Embedding of `SignalAnalyzer.check_buy_signal`: evaluates the five
conditions in source order (the volume-spike call appends to the volume
window, and the delta / OI readings are appended to their windows after
being compared), and emits a BUY signal when at least 3 conditions hold,
with confidence `signal_count / 5`. -/
def check_buy_signal (s : SAState) (symbol : String) (t : Tick) :
    Option BuySignal × SAState :=
  let ofi_result := calculate_ofi t.tbq t.tsq
  let c1 : Bool := decide (ofi_result.value > 1/2)
  let c2 : Bool :=
    match t.quotes with
    | [] => false
    | q :: _ => decide (t.ltp ≥ q.askP ∧ q.askP > 0)
  let vsp := calculate_volume_spike s (pyTrunc t.ltq)
  let s1 := vsp.2
  let c3 : Bool := decide (vsp.1.ratio > 2)
  let c4 : Bool :=
    match s1.delta_history.getLast? with
    | none => false
    | some prev_delta => decide (t.delta > prev_delta)
  let s2 := { s1 with delta_history := pushBounded 5 s1.delta_history t.delta }
  let c5 : Bool :=
    match s2.oi_history.getLast? with
    | none => false
    | some prev_oi => decide (t.oi > prev_oi)
  let s3 := { s2 with oi_history := pushBounded 5 s2.oi_history t.oi }
  let signal_count := countTrue [c1, c2, c3, c4, c5]
  let res :=
    if signal_count ≥ 3 then
      some { action := "BUY", symbol := symbol, entry := pyRound 2 t.ltp,
             confidence := pyRound 2 ((signal_count : ℚ) / 5),
             signal_count := signal_count }
    else
      none
  (res, s3)

/-- Emitted SELL signal of the lenient engine. -/
structure SellSignal where
  action : String
  symbol : String
  exitP : ℚ
  signal_count : ℕ
  reason : String
deriving DecidableEq

/-- Embedding of `SignalAnalyzer.check_sell_signal` (state is only read,
never written). `entry_price` models the optional argument; a zero price is
falsy in the source's `if entry_price and ...` test. -/
def check_sell_signal (s : SAState) (symbol : String) (t : Tick)
    (entry_price : Option ℚ) (target_points : ℚ) : Option SellSignal :=
  let ofi_result := calculate_ofi t.tbq t.tsq
  let c1 : Bool := decide (ofi_result.value < 2/10)
  let c2 : Bool :=
    if h : s.price_history.length > 1 then
      decide (t.ltp < s.price_history.get ⟨s.price_history.length - 2, by omega⟩)
    else false
  let c3 : Bool := decide (s.tick_count > 2 ∧ t.tbq < t.tsq)
  let c4 : Bool :=
    if h : s.delta_history.length > 1 then
      let current_delta := s.delta_history.get ⟨s.delta_history.length - 1, by omega⟩
      let prev_delta := s.delta_history.get ⟨s.delta_history.length - 2, by omega⟩
      decide (current_delta < prev_delta - 2/100)
    else false
  let targetHit : Bool :=
    match entry_price with
    | none => false
    | some e => decide (e ≠ 0 ∧ t.ltp ≥ e + target_points)
  let c5 : Bool := targetHit
  let signal_count := c1.toNat + c2.toNat + c3.toNat + c4.toNat + c5.toNat
  if signal_count ≥ 3 then
    some { action := "SELL", symbol := symbol, exitP := pyRound 2 t.ltp,
           signal_count := signal_count,
           reason := if targetHit then "Target/Weakness" else "Weakness Detected" }
  else
    none

/-- Analysis record returned by the lenient `analyze_tick` (timestamp
omitted). -/
structure SAAnalysis where
  symbol : String
  ltp : ℚ
  ofi : OfiResult
  spread : SpreadResult
  momentum : MomentumResult
  volume_spike : VolumeSpikeResult
  buy : Option BuySignal
  sell : Option SellSignal
deriving DecidableEq

/-- Embedding of `SignalAnalyzer.analyze_tick`: runs the indicators, then
`check_buy_signal` and `check_sell_signal`, threading the per-symbol state
exactly as the source mutates it (the volume window is appended to twice:
once by the direct `calculate_volume_spike` call and once inside
`check_buy_signal`). -/
def sa_analyze_tick (s : SAState) (symbol : String) (t : Tick) :
    SAAnalysis × SAState :=
  let best_bid := ((t.quotes.head?.map Quote.bidP).getD t.ltp)
  let best_ask := ((t.quotes.head?.map Quote.askP).getD t.ltp)
  let ofi := calculate_ofi t.tbq t.tsq
  let spread := calculate_spread best_bid best_ask t.ltp
  let mom := calculate_momentum s t.ltp
  let vsp := calculate_volume_spike mom.2 (pyTrunc t.ltq)
  let buy := check_buy_signal vsp.2 symbol t
  let sell := check_sell_signal buy.2 symbol t none 5
  ({ symbol := symbol, ltp := pyRound 2 t.ltp, ofi := ofi, spread := spread,
     momentum := mom.1, volume_spike := vsp.1, buy := buy.1, sell := sell },
   buy.2)

/-! ## signal_analyzer_strong.py — strict `StrongSignalAnalyzer` -/

/-- Per-symbol mutable state of `StrongSignalAnalyzer` (`lookback` is the
`lookback_ticks` constructor argument, 10 by default, 5 in `app.py`). -/
structure SSAState where
  lookback : ℕ
  price_history : List ℚ
  volume_history : List ℚ
  delta_history : List ℚ
  gamma_history : List ℚ
  oi_history : List ℚ
  ofi_history : List ℚ
  tick_count : ℕ
deriving DecidableEq

/-- Fresh strict-analyzer state. -/
def SSAState.init (lookback : ℕ) : SSAState :=
  ⟨lookback, [], [], [], [], [], [], 0⟩

/-- Embedding of `StrongSignalAnalyzer.calculate_ofi` (strict thresholds at
0.7 and 0.6, everything else labelled WEAK). -/
def strong_calculate_ofi (tbq tsq : ℚ) : OfiResult :=
  if tbq + tsq = 0 then ⟨0, "NEUTRAL", 0⟩
  else
    let ofi := (tbq - tsq) / (tbq + tsq)
    if ofi > 7/10 then ⟨pyRound 4 ofi, "VERY_STRONG_BUY", 1⟩
    else if ofi > 6/10 then ⟨pyRound 4 ofi, "STRONG_BUY", pyRound 2 (8/10)⟩
    else ⟨pyRound 4 ofi, "WEAK", 0⟩

/-- Embedding of `StrongSignalAnalyzer.calculate_volume_spike` (capacity-60
window, minimum fill 10, thresholds at 5x / 4x / 3x). -/
def strong_calculate_volume_spike (s : SSAState) (current_volume : ℤ) :
    VolumeSpikeResult × SSAState :=
  let vh := pushBounded 60 s.volume_history (current_volume : ℚ)
  let s1 := { s with volume_history := vh, tick_count := s.tick_count + 1 }
  let res :=
    if vh.length < 10 then (⟨1, "WEAK", 0⟩ : VolumeSpikeResult)
    else
      let avg_volume := listAvg vh
      let spike_ratio := if avg_volume > 0 then (current_volume : ℚ) / avg_volume else 1
      if spike_ratio ≥ 5 then ⟨pyRound 2 spike_ratio, "EXTREME_SPIKE", 1⟩
      else if spike_ratio ≥ 4 then ⟨pyRound 2 spike_ratio, "VERY_STRONG_SPIKE", pyRound 2 (9/10)⟩
      else if spike_ratio ≥ 3 then ⟨pyRound 2 spike_ratio, "STRONG_SPIKE", pyRound 2 (7/10)⟩
      else ⟨pyRound 2 spike_ratio, "WEAK", 0⟩
  (res, s1)

/-- Result record of the strict `calculate_momentum`. -/
structure StrongMomentumResult where
  value : ℚ
  signal : String
  trend : String
deriving DecidableEq

/-- Count of consecutive up-moves in a price list (the source's loop
`for i in range(1, len(prices)): if prices[i] > prices[i-1]`). -/
def uptrendCount : List ℚ → ℕ
  | [] => 0
  | [_] => 0
  | a :: b :: rest => (if b > a then 1 else 0) + uptrendCount (b :: rest)

/-- Embedding of `StrongSignalAnalyzer.calculate_momentum`: appends the price
(window capacity `lookback_ticks`), requires 5 entries, and labels the move
from the up-tick fraction together with the mean-relative momentum. -/
def strong_calculate_momentum (s : SSAState) (current_ltp : ℚ) :
    StrongMomentumResult × SSAState :=
  let ph := pushBounded s.lookback s.price_history current_ltp
  let s1 := { s with price_history := ph }
  let res :=
    if ph.length < 5 then (⟨0, "WEAK", "NONE"⟩ : StrongMomentumResult)
    else
      let uptrend_ratio := (uptrendCount ph : ℚ) / ((ph.length : ℚ) - 1)
      let avg_price := listAvg ph
      let momentum := if avg_price > 0 then (current_ltp - avg_price) / avg_price else 0
      if uptrend_ratio ≥ 8/10 ∧ momentum > 3/1000 then
        ⟨pyRound 5 momentum, "VERY_STRONG", "CONSISTENT_UP"⟩
      else if uptrend_ratio ≥ 7/10 ∧ momentum > 2/1000 then
        ⟨pyRound 5 momentum, "STRONG", "MOSTLY_UP"⟩
      else
        ⟨pyRound 5 momentum, "WEAK", "CHOPPY"⟩
  (res, s1)

/-- Result record of `analyze_greeks_strength` (message list omitted). -/
structure GreeksResult where
  score : ℤ
  strength : String
  gamma : ℚ
  delta : ℚ
  iv : ℚ
  gamma_increasing : Bool
  delta_increasing : Bool
deriving DecidableEq

/-- Last three entries of a list (`list(d)[-3:]`) as a triple head/last test:
`trendUp l` holds when the list has at least 3 entries and the last of its
final three entries exceeds the first of them. -/
def trendUp (l : List ℚ) : Bool :=
  if l.length ≥ 3 then
    let recent := l.drop (l.length - 3)
    match recent.head?, recent.getLast? with
    | some a, some b => decide (b > a)
    | _, _ => false
  else false

/-- Embedding of `StrongSignalAnalyzer.analyze_greeks_strength`: pushes gamma
and delta onto their capacity-5 windows, detects 3-entry rising trends, and
accumulates the additive point score (gamma magnitude, gamma trend, delta
magnitude, delta trend, IV sweet-spot bonus or high-IV penalty). -/
def analyze_greeks_strength (s : SSAState) (gamma delta iv : ℚ) :
    GreeksResult × SSAState :=
  let gh := pushBounded 5 s.gamma_history gamma
  let dh := pushBounded 5 s.delta_history delta
  let s1 := { s with gamma_history := gh, delta_history := dh }
  let gamma_increasing := trendUp gh
  let delta_increasing := trendUp dh
  let score : ℤ :=
    (if gamma > 2/1000 then 3 else if gamma > 1/1000 then 2 else 0)
    + (if gamma_increasing ∧ gamma > 5/10000 then 2 else 0)
    + (if delta > 7/10 then 3 else if delta > 6/10 then 2 else 0)
    + (if delta_increasing then 2 else 0)
    + (if 15/100 < iv ∧ iv < 30/100 then 1 else if iv > 35/100 then -2 else 0)
  let strength :=
    if score ≥ 8 then "VERY_STRONG"
    else if score ≥ 5 then "STRONG"
    else "WEAK"
  (⟨score, strength, pyRound 4 gamma, pyRound 3 delta, pyRound 3 iv,
    gamma_increasing, delta_increasing⟩, s1)

/-- Emitted STRONG_BUY signal of the strict engine (timestamp, alert banner
and message list omitted). -/
structure StrongBuySignal where
  action : String
  symbol : String
  entry : ℚ
  confidence : ℚ
  signal_count : ℕ
  total_conditions : ℕ
  gamma : ℚ
  delta : ℚ
  iv : ℚ
  ofi : ℚ
  volume_ratio : ℚ
deriving DecidableEq

/-- The seven boolean conditions of `check_strong_buy_signal`, each stated on
the state the source reads it from (each condition reads a window no earlier
condition writes). -/
def strongConds (s : SSAState) (t : Tick) : List Bool :=
  let ofi_result := strong_calculate_ofi t.tbq t.tsq
  let c1 : Bool := decide (ofi_result.signal = "VERY_STRONG_BUY" ∨ ofi_result.signal = "STRONG_BUY")
  let vsig := (strong_calculate_volume_spike s (pyTrunc t.ltq)).1.signal
  let c2 : Bool := decide (vsig = "EXTREME_SPIKE" ∨ vsig = "VERY_STRONG_SPIKE" ∨ vsig = "STRONG_SPIKE")
  let msig := (strong_calculate_momentum s t.ltp).1.signal
  let c3 : Bool := decide (msig = "VERY_STRONG" ∨ msig = "STRONG")
  let gsig := (analyze_greeks_strength s t.gamma t.delta t.iv).1.strength
  let c4 : Bool := decide (gsig = "VERY_STRONG" ∨ gsig = "STRONG")
  let c5 : Bool :=
    decide (s.oi_history ≠ [] ∧ t.oi > listAvg s.oi_history * (11/10))
  let c6 : Bool :=
    match t.quotes with
    | [] => false
    | q :: _ => decide (t.ltp ≥ q.askP ∧ q.askP > 0)
  let oh := pushBounded 5 s.ofi_history ofi_result.value
  let c7 : Bool :=
    decide (oh.length ≥ 3) && (oh.drop (oh.length - 3)).all (fun o => decide (o > 1/2))
  [c1, c2, c3, c4, c5, c6, c7]

/-- Embedding of `StrongSignalAnalyzer.check_strong_buy_signal`: evaluates the
seven conditions in source order, threading every window mutation (volume,
price, gamma/delta, OI and OFI history all get the current tick appended),
accumulates the weighted confidence score of the satisfied conditions, and
emits a STRONG_BUY only when at least 5 of the 7 conditions hold, with
confidence `min(confidence_score / 100, 1)`. -/
def check_strong_buy_signal (s : SSAState) (symbol : String) (t : Tick) :
    Option StrongBuySignal × SSAState :=
  let ofi_result := strong_calculate_ofi t.tbq t.tsq
  let c1 : Bool := decide (ofi_result.signal = "VERY_STRONG_BUY" ∨ ofi_result.signal = "STRONG_BUY")
  let vsp := strong_calculate_volume_spike s (pyTrunc t.ltq)
  let s1 := vsp.2
  let c2 : Bool := decide (vsp.1.signal = "EXTREME_SPIKE" ∨ vsp.1.signal = "VERY_STRONG_SPIKE" ∨ vsp.1.signal = "STRONG_SPIKE")
  let mom := strong_calculate_momentum s1 t.ltp
  let s2 := mom.2
  let c3 : Bool := decide (mom.1.signal = "VERY_STRONG" ∨ mom.1.signal = "STRONG")
  let gk := analyze_greeks_strength s2 t.gamma t.delta t.iv
  let s3 := gk.2
  let c4 : Bool := decide (gk.1.strength = "VERY_STRONG" ∨ gk.1.strength = "STRONG")
  let c5 : Bool :=
    decide (s3.oi_history ≠ [] ∧ t.oi > listAvg s3.oi_history * (11/10))
  let s4 := { s3 with oi_history := pushBounded 5 s3.oi_history t.oi }
  let c6 : Bool :=
    match t.quotes with
    | [] => false
    | q :: _ => decide (t.ltp ≥ q.askP ∧ q.askP > 0)
  let oh := pushBounded 5 s4.ofi_history ofi_result.value
  let s5 := { s4 with ofi_history := oh }
  let c7 : Bool :=
    decide (oh.length ≥ 3) && (oh.drop (oh.length - 3)).all (fun o => decide (o > 1/2))
  let signal_count := countTrue [c1, c2, c3, c4, c5, c6, c7]
  let confidence_score : ℚ :=
    (if c1 then ofi_result.strength * 20 else 0)
    + (if c2 then vsp.1.strength * 15 else 0)
    + (if c3 then 15 else 0)
    + (if c4 then (gk.1.score : ℚ) * 2 else 0)
    + (if c5 then 10 else 0)
    + (if c6 then 10 else 0)
    + (if c7 then 10 else 0)
  let res :=
    if signal_count ≥ 5 then
      some { action := "STRONG_BUY", symbol := symbol, entry := pyRound 2 t.ltp,
             confidence := pyRound 2 (min (confidence_score / 100) 1),
             signal_count := signal_count, total_conditions := 7,
             gamma := gk.1.gamma, delta := gk.1.delta, iv := gk.1.iv,
             ofi := ofi_result.value, volume_ratio := vsp.1.ratio }
    else
      none
  (res, s5)

/-- Analysis record returned by the strict `analyze_tick` (timestamp
omitted); `sell` is the literal `None` of the source. -/
structure SSAAnalysis where
  symbol : String
  ltp : ℚ
  ofi : OfiResult
  volume_spike : VolumeSpikeResult
  momentum : StrongMomentumResult
  greeks : GreeksResult
  buy : Option StrongBuySignal
  sell : Option StrongBuySignal
deriving DecidableEq

/-- Embedding of `StrongSignalAnalyzer.analyze_tick`: computes every indicator
once directly (each appending to its window) and then calls
`check_strong_buy_signal`, which repeats those indicator calls, so each window
receives the current tick twice; the `sell` field is the literal `None`. -/
def ssa_analyze_tick (s : SSAState) (symbol : String) (t : Tick) :
    SSAAnalysis × SSAState :=
  let ofi := strong_calculate_ofi t.tbq t.tsq
  let vsp := strong_calculate_volume_spike s (pyTrunc t.ltq)
  let mom := strong_calculate_momentum vsp.2 t.ltp
  let gk := analyze_greeks_strength mom.2 t.gamma t.delta t.iv
  let buy := check_strong_buy_signal gk.2 symbol t
  ({ symbol := symbol, ltp := pyRound 2 t.ltp, ofi := ofi, volume_spike := vsp.1,
     momentum := mom.1, greeks := gk.1, buy := buy.1, sell := none },
   buy.2)

/-! ## bigmove_detector.py — composite `BigMoveDetector` -/

/-- One OHLC candle of `marketOHLC.ohlc`, numeric fields already coerced. -/
structure Candle where
  interval : String
  high : ℚ
  low : ℚ
deriving DecidableEq

/-- The `fullFeed.marketFF` section consumed by `BigMoveDetector.analyze`,
with every numeric field holding its `to_num` value. -/
structure MarketFF where
  ltp : ℚ
  vtt : ℚ
  tbq : ℚ
  tsq : ℚ
  gamma : ℚ
  delta : ℚ
  iv : ℚ
  candles : List Candle
deriving DecidableEq

/-- Per-symbol state of `BigMoveDetector`: the exponentially smoothed volume
average (`none` when the symbol has no entry in `avg_volumes` yet). -/
structure BMState where
  avg_volume : Option ℚ
deriving DecidableEq

/-- Embedding of `BigMoveDetector.calculate_greeks_score`: additive rubric on
gamma magnitude (5/3/1 points at >0.001/>0.0005/>0.0001), absolute delta
(5/3/1 at >0.7/>0.5/>0.3) and IV (5/3/1 at >0.3/>0.2/>0.1), capped at 15.
All contributions are non-negative integers, so the score is embedded in ℕ. -/
def calculate_greeks_score (gamma delta iv : ℚ) : ℕ :=
  let s1 : ℕ := if gamma > 1/1000 then 5 else if gamma > 5/10000 then 3 else if gamma > 1/10000 then 1 else 0
  let s2 : ℕ := if |delta| > 7/10 then 5 else if |delta| > 5/10 then 3 else if |delta| > 3/10 then 1 else 0
  let s3 : ℕ := if iv > 3/10 then 5 else if iv > 2/10 then 3 else if iv > 1/10 then 1 else 0
  min (s1 + s2 + s3) 15

/-- Volume factor of the composite score (0-35, thresholds >5/>3/>2/>1.5). -/
def volumeFactor (volume_ratio : ℚ) : ℕ :=
  if volume_ratio > 5 then 35
  else if volume_ratio > 3 then 25
  else if volume_ratio > 2 then 15
  else if volume_ratio > 3/2 then 8
  else 0

/-- Price-range factor of the composite score (0-30, thresholds >3/>2/>1/>0.5). -/
def rangeFactor (price_range : ℚ) : ℕ :=
  if price_range > 3 then 30
  else if price_range > 2 then 20
  else if price_range > 1 then 12
  else if price_range > 1/2 then 5
  else 0

/-- Order-book factor of the composite score (0-20, thresholds >5/>3/>2/>1.5). -/
def obFactor (ob_ratio : ℚ) : ℕ :=
  if ob_ratio > 5 then 20
  else if ob_ratio > 3 then 15
  else if ob_ratio > 2 then 10
  else if ob_ratio > 3/2 then 5
  else 0

/-- Intraday price range used by `analyze`: from the first `I1`-interval
candle, or the first candle when no `I1` candle exists; 0 when the candle
list is empty or its low is not positive. -/
def priceRangeOf (candles : List Candle) : ℚ :=
  match candles with
  | [] => 0
  | c0 :: _ =>
    let candle := (candles.find? (fun c => c.interval = "I1")).getD c0
    if candle.low > 0 then (candle.high - candle.low) / candle.low * 100 else 0

/-- Analysis result of `BigMoveDetector.analyze` (the metrics snapshot and the
alert-descriptor list are display data and omitted; `score` is the
integer-valued composite score, stored by the source as a float and rounded
to two digits, which is the identity on integers). -/
structure BMResult where
  symbol : String
  score : ℕ
  alertLevel : String
  greeksScore : ℕ
deriving DecidableEq

/-- Embedding of `BigMoveDetector.analyze`: volume ratio against the smoothed
average (seeded with `volume/10`, or 1 for zero volume), order-book ratio
`tbq/tsq`, candle price range, the Greeks rubric, the four capped factors
summed and clamped to 100, and the alert tier at 75/55/35. Returns `none`
(before touching any state) when the feed has no `fullFeed.marketFF`. -/
def bm_analyze (st : BMState) (symbol : String) (feed : Option MarketFF) :
    Option BMResult × BMState :=
  match feed with
  | none => (none, st)
  | some mff =>
    let volume := mff.vtt
    let avg_vol := st.avg_volume.getD (if volume > 0 then volume / 10 else 1)
    let volume_ratio := if avg_vol > 0 then volume / avg_vol else 0
    let st1 : BMState := ⟨some (avg_vol * (9/10) + volume * (1/10))⟩
    let ob_ratio := if mff.tsq > 0 then mff.tbq / mff.tsq else 0
    let price_range := priceRangeOf mff.candles
    let greeks_score := calculate_greeks_score mff.gamma mff.delta mff.iv
    let score := min (volumeFactor volume_ratio + rangeFactor price_range
      + obFactor ob_ratio + greeks_score) 100
    let alert_level :=
      if score ≥ 75 then "CRITICAL"
      else if score ≥ 55 then "WARNING"
      else if score ≥ 35 then "WATCH"
      else "NORMAL"
    (some ⟨symbol, score, alert_level, greeks_score⟩, st1)

/-! ## to_num — numeric coercion model with non-finite floats -/

/-- Python float values including the non-finite ones. -/
inductive PyFloat
  | finite (q : ℚ)
  | nan
  | inf
  | ninf
deriving DecidableEq

/-- Whether a Python float is finite. -/
def PyFloat.isFinite : PyFloat → Bool
  | .finite _ => true
  | _ => false

/-- The classes of Python value that reach `to_num`: `None`, the empty
string, a non-empty string represented by the outcome of `float()` on it
(`some f` when it parses — possibly to `nan`/`inf` — and `none` when
`float()` raises `ValueError`), a numeric value, and any other object
(`float()` raises `TypeError`). -/
inductive PyVal
  | vnone
  | vemptyStr
  | vstr (parsed : Option PyFloat)
  | vnum (f : PyFloat)
  | vother
deriving DecidableEq

/-- Whether `to_num` classifies the input as missing / empty / non-numeric. -/
def PyVal.isNonNumeric : PyVal → Bool
  | .vnone => true
  | .vemptyStr => true
  | .vstr none => true
  | .vother => true
  | _ => false

/-- Embedding of `SignalAnalyzer.to_num`: 0.0 for `None`, the empty string
and inputs `float()` rejects; otherwise the parsed float, unchanged — with
no guard against NaN or Infinity. -/
def sa_to_num (v : PyVal) : PyFloat :=
  match v with
  | .vnone => .finite 0
  | .vemptyStr => .finite 0
  | .vstr parsed => parsed.getD (.finite 0)
  | .vnum f => f
  | .vother => .finite 0

/-- Embedding of `StrongSignalAnalyzer.to_num` (same body as the lenient
analyzer's). -/
def ssa_to_num (v : PyVal) : PyFloat :=
  match v with
  | .vnone => .finite 0
  | .vemptyStr => .finite 0
  | .vstr parsed => parsed.getD (.finite 0)
  | .vnum f => f
  | .vother => .finite 0

/-- Embedding of `BigMoveDetector.to_num`: as the analyzers' version, but the
result is additionally replaced by 0.0 when it is NaN (`n != n`); an
infinite result passes the `n != n` test (`inf != inf` is false) and is
returned unchanged. -/
def bm_to_num (v : PyVal) : PyFloat :=
  let n : PyFloat :=
    match v with
    | .vnone => .finite 0
    | .vemptyStr => .finite 0
    | .vstr parsed => parsed.getD (.finite 0)
    | .vnum f => f
    | .vother => .finite 0
  match n with
  | .nan => .finite 0
  | f => f

/-! ## app.py — feed connector and broadcast hub -/

/-- Connector state visible to the reconnect loop of
`UpstoxMarketDataService.connect_and_stream`: the service's `running` flag,
the loop's `retry_count`, and the shared `state.upstox_connected` flag. -/
structure ConnState where
  running : Bool
  retry_count : ℕ
  connected : Bool
deriving DecidableEq

/-- The `max_retries` constant of `connect_and_stream`. -/
def max_retries : ℕ := 5

/-- Connector state when the service starts (`start` sets `running = True`;
`retry_count = 0`; not yet connected). -/
def ConnState.start : ConnState := ⟨true, 0, false⟩

/-- Guard of the reconnect loop: `while self.running and retry_count < max_retries`. -/
def loopActive (s : ConnState) : Bool :=
  s.running && decide (s.retry_count < max_retries)

/-- Effect of one failed connection attempt (the `except` branch of the
loop): the retry counter is incremented and the connected flag cleared;
below `max_retries` the loop sleeps `min(5 * retry_count, 30)` seconds
(returned as the second component), otherwise `running` is cleared and no
wait occurs. -/
def onFailure (s : ConnState) : ConnState × ℕ :=
  let r := s.retry_count + 1
  if r < max_retries then
    (⟨s.running, r, false⟩, min (5 * r) 30)
  else
    (⟨false, r, false⟩, 0)

/-- Effect of a successful connection (the head of the `async with` block):
the shared connected flag is set and the retry counter reset to zero. -/
def onConnect (s : ConnState) : ConnState :=
  ⟨s.running, 0, true⟩

/-- State after `n` consecutive failed connection attempts. -/
def afterFailures (n : ℕ) (s : ConnState) : ConnState :=
  match n with
  | 0 => s
  | n + 1 => afterFailures n (onFailure s).1

/-- One SSE subscriber queue of `generate_sse` (`deque(maxlen=100)`); events
of any type are pushed by `broadcast_data` with a plain `append`, which never
blocks and evicts the oldest entry when the queue is full. -/
def publishAll {α : Type} (queue : List α) (events : List α) : List α :=
  events.foldl (pushBounded 100) queue

/-! ## Helper lemmas -/

/-- Weighted confidence accumulation of `check_strong_buy_signal`, stated on
the pre-call state: each satisfied condition contributes its own strength
times its weight (OFI strength x20, volume strength x15, momentum 15, Greeks
score x2, OI / breakout / OFI-history 10 each). -/
def strongConfidenceScore (s : SSAState) (t : Tick) : ℚ :=
  let ofi_result := strong_calculate_ofi t.tbq t.tsq
  let c1 : Bool := decide (ofi_result.signal = "VERY_STRONG_BUY" ∨ ofi_result.signal = "STRONG_BUY")
  let vsp := strong_calculate_volume_spike s (pyTrunc t.ltq)
  let c2 : Bool := decide (vsp.1.signal = "EXTREME_SPIKE" ∨ vsp.1.signal = "VERY_STRONG_SPIKE" ∨ vsp.1.signal = "STRONG_SPIKE")
  let mom := strong_calculate_momentum s t.ltp
  let c3 : Bool := decide (mom.1.signal = "VERY_STRONG" ∨ mom.1.signal = "STRONG")
  let gk := analyze_greeks_strength s t.gamma t.delta t.iv
  let c4 : Bool := decide (gk.1.strength = "VERY_STRONG" ∨ gk.1.strength = "STRONG")
  let c5 : Bool :=
    decide (s.oi_history ≠ [] ∧ t.oi > listAvg s.oi_history * (11/10))
  let c6 : Bool :=
    match t.quotes with
    | [] => false
    | q :: _ => decide (t.ltp ≥ q.askP ∧ q.askP > 0)
  let oh := pushBounded 5 s.ofi_history ofi_result.value
  let c7 : Bool :=
    decide (oh.length ≥ 3) && (oh.drop (oh.length - 3)).all (fun o => decide (o > 1/2))
  (if c1 then ofi_result.strength * 20 else 0)
  + (if c2 then vsp.1.strength * 15 else 0)
  + (if c3 then 15 else 0)
  + (if c4 then (gk.1.score : ℚ) * 2 else 0)
  + (if c5 then 10 else 0)
  + (if c6 then 10 else 0)
  + (if c7 then 10 else 0)

/-- Volume ratio computed by `BigMoveDetector.analyze`: current cumulative
volume against the smoothed average, seeded with `volume / 10` (or 1 when
the volume is zero) for an unseen symbol. -/
def bmVolumeRatio (st : BMState) (mff : MarketFF) : ℚ :=
  let volume := mff.vtt
  let avg_vol := st.avg_volume.getD (if volume > 0 then volume / 10 else 1)
  if avg_vol > 0 then volume / avg_vol else 0

/-- Order-book ratio `tbq / tsq` of `BigMoveDetector.analyze` (0 when `tsq`
is not positive). -/
def bmObRatio (mff : MarketFF) : ℚ := if mff.tsq > 0 then mff.tbq / mff.tsq else 0

/-- The composite score of `BigMoveDetector.analyze`: the four capped factors
summed and clamped at 100. -/
def bmScore (st : BMState) (mff : MarketFF) : ℕ :=
  min (volumeFactor (bmVolumeRatio st mff) + rangeFactor (priceRangeOf mff.candles)
    + obFactor (bmObRatio mff) + calculate_greeks_score mff.gamma mff.delta mff.iv) 100

/-- The alert tier of `BigMoveDetector.analyze`. -/
def bmAlert (st : BMState) (mff : MarketFF) : String :=
  if bmScore st mff ≥ 75 then "CRITICAL" else if bmScore st mff ≥ 55 then "WARNING"
  else if bmScore st mff ≥ 35 then "WATCH" else "NORMAL"

/-- Concrete tick for the lenient witness scenario: strong buy flow
(OFI 0.8), price at the top-of-book ask, and a volume spike. -/
def wTick1 : Tick := ⟨900, 100, 110, 1000, 0, 0, 0, 0, [⟨109, 110⟩]⟩

/-- Lenient analyzer state primed with four equal volumes. -/
def wSA1 : SAState := { SAState.init 5 with volume_history := [100, 100, 100, 100] }

/-- Concrete tick for the strict witness scenario: OFI 0.8, strong Greeks,
rising OI, breakout over the ask — 5 of the 7 strict conditions hold. -/
def wTick3 : Tick := ⟨900, 100, 110, 0, 2000, 8/10, 3/1000, 0, [⟨109, 110⟩]⟩

/-- As `wTick3` but with the ask above the price, so the breakout condition
fails and only 4 of the 7 strict conditions hold. -/
def wTick4 : Tick := ⟨900, 100, 110, 0, 2000, 8/10, 3/1000, 0, [⟨109, 111⟩]⟩

/-- Strict analyzer state primed with one OI reading and two high OFI
readings. -/
def wSSA3 : SSAState :=
  { SSAState.init 10 with oi_history := [1000], ofi_history := [6/10, 7/10] }

/-- The BUY signal `check_buy_signal` emits on `wSA1` / `wTick1`. -/
def wBuy1 : BuySignal := ⟨"BUY", "X", 110, 3/5, 3⟩

/-- The STRONG_BUY signal `check_strong_buy_signal` emits on `wSSA3` /
`wTick3`. -/
def wStrong1 : StrongBuySignal :=
  ⟨"STRONG_BUY", "X", 110, 31/50, 5, 7, 3/1000, 4/5, 0, 4/5, 1⟩

/-- Concrete market feed for the composite-scorer witness: volume ratio 10,
3% candle range, order-book ratio 4, Greeks sub-score 13 — total 83,
CRITICAL. -/
def wMFF : MarketFF := ⟨100, 100, 400, 100, 2/1000, 8/10, 1/4, [⟨"I1", 103, 100⟩]⟩

/-- Duplicated per-tick volume stream: `analyze_tick` of the strict analyzer
pushes `int(ltq)` twice per tick (once directly, once inside
`check_strong_buy_signal`). -/
def dupVol : List Tick → List ℚ
  | [] => []
  | t :: ts => ((pyTrunc t.ltq : ℤ) : ℚ) :: ((pyTrunc t.ltq : ℤ) : ℚ) :: dupVol ts

/-- Folding a tick stream through the strict analyzer's `analyze_tick`. -/
def ssaRun (sym : String) (s : SSAState) : List Tick → SSAState
  | [] => s
  | t :: ts => ssaRun sym (ssa_analyze_tick s sym t).2 ts

theorem calculate_momentum_snd (s : SAState) (ltp : ℚ) :
    (calculate_momentum s ltp).2 =
      { s with price_history := pushBounded s.lookback s.price_history ltp } := rfl

theorem calculate_volume_spike_snd (s : SAState) (v : ℤ) :
    (calculate_volume_spike s v).2 =
      { s with volume_history := pushBounded 60 s.volume_history (v : ℚ),
               tick_count := s.tick_count + 1 } := rfl

theorem strong_calculate_momentum_snd (s : SSAState) (ltp : ℚ) :
    (strong_calculate_momentum s ltp).2 =
      { s with price_history := pushBounded s.lookback s.price_history ltp } := rfl

theorem strong_calculate_volume_spike_snd (s : SSAState) (v : ℤ) :
    (strong_calculate_volume_spike s v).2 =
      { s with volume_history := pushBounded 60 s.volume_history (v : ℚ),
               tick_count := s.tick_count + 1 } := rfl

theorem analyze_greeks_strength_snd (s : SSAState) (g d i : ℚ) :
    (analyze_greeks_strength s g d i).2 =
      { s with gamma_history := pushBounded 5 s.gamma_history g,
               delta_history := pushBounded 5 s.delta_history d } := rfl

set_option maxRecDepth 8000 in
theorem check_buy_signal_snd (s : SAState) (sym : String) (t : Tick) :
    (check_buy_signal s sym t).2 =
      { s with volume_history := pushBounded 60 s.volume_history ((pyTrunc t.ltq : ℤ) : ℚ),
               tick_count := s.tick_count + 1,
               delta_history := pushBounded 5 s.delta_history t.delta,
               oi_history := pushBounded 5 s.oi_history t.oi } := rfl

set_option maxRecDepth 8000 in
theorem check_strong_buy_signal_snd (s : SSAState) (sym : String) (t : Tick) :
    (check_strong_buy_signal s sym t).2 =
      { s with volume_history := pushBounded 60 s.volume_history ((pyTrunc t.ltq : ℤ) : ℚ),
               tick_count := s.tick_count + 1,
               price_history := pushBounded s.lookback s.price_history t.ltp,
               gamma_history := pushBounded 5 s.gamma_history t.gamma,
               delta_history := pushBounded 5 s.delta_history t.delta,
               oi_history := pushBounded 5 s.oi_history t.oi,
               ofi_history := pushBounded 5 s.ofi_history (strong_calculate_ofi t.tbq t.tsq).value } := rfl

set_option maxRecDepth 8000 in
theorem check_buy_signal_fst (s : SAState) (sym : String) (t : Tick) :
    (check_buy_signal s sym t).1 =
      if 3 ≤ countTrue (buyConds s t) then
        some { action := "BUY", symbol := sym, entry := pyRound 2 t.ltp,
               confidence := pyRound 2 ((countTrue (buyConds s t) : ℚ) / 5),
               signal_count := countTrue (buyConds s t) }
      else none := rfl

set_option maxRecDepth 8000 in
set_option maxHeartbeats 2000000 in
theorem check_strong_buy_signal_fst (s : SSAState) (sym : String) (t : Tick) :
    (check_strong_buy_signal s sym t).1 =
      if 5 ≤ countTrue (strongConds s t) then
        some { action := "STRONG_BUY", symbol := sym, entry := pyRound 2 t.ltp,
               confidence := pyRound 2 (min (strongConfidenceScore s t / 100) 1),
               signal_count := countTrue (strongConds s t), total_conditions := 7,
               gamma := (analyze_greeks_strength s t.gamma t.delta t.iv).1.gamma,
               delta := (analyze_greeks_strength s t.gamma t.delta t.iv).1.delta,
               iv := (analyze_greeks_strength s t.gamma t.delta t.iv).1.iv,
               ofi := (strong_calculate_ofi t.tbq t.tsq).value,
               volume_ratio := (strong_calculate_volume_spike s (pyTrunc t.ltq)).1.ratio }
      else none := rfl

set_option maxRecDepth 8000 in
theorem ssa_analyze_tick_snd (s : SSAState) (sym : String) (t : Tick) :
    (ssa_analyze_tick s sym t).2 =
      { s with
        volume_history := pushBounded 60 (pushBounded 60 s.volume_history
          ((pyTrunc t.ltq : ℤ) : ℚ)) ((pyTrunc t.ltq : ℤ) : ℚ),
        price_history := pushBounded s.lookback
          (pushBounded s.lookback s.price_history t.ltp) t.ltp,
        gamma_history := pushBounded 5 (pushBounded 5 s.gamma_history t.gamma) t.gamma,
        delta_history := pushBounded 5 (pushBounded 5 s.delta_history t.delta) t.delta,
        oi_history := pushBounded 5 s.oi_history t.oi,
        ofi_history := pushBounded 5 s.ofi_history (strong_calculate_ofi t.tbq t.tsq).value,
        tick_count := s.tick_count + 1 + 1 } := rfl

set_option maxRecDepth 8000 in
theorem sa_analyze_tick_snd (s : SAState) (sym : String) (t : Tick) :
    (sa_analyze_tick s sym t).2 =
      { s with
        price_history := pushBounded s.lookback s.price_history t.ltp,
        volume_history := pushBounded 60 (pushBounded 60 s.volume_history
          ((pyTrunc t.ltq : ℤ) : ℚ)) ((pyTrunc t.ltq : ℤ) : ℚ),
        delta_history := pushBounded 5 s.delta_history t.delta,
        oi_history := pushBounded 5 s.oi_history t.oi,
        tick_count := s.tick_count + 1 + 1 } := rfl

theorem pushBounded_eq {α : Type} (cap : ℕ) (xs : List α) (x : α) :
    pushBounded cap xs x = (xs ++ [x]).drop (xs.length + 1 - cap) := by
  simp [pushBounded]

theorem length_pushBounded {α : Type} (cap : ℕ) (xs : List α) (x : α) :
    (pushBounded cap xs x).length = min (xs.length + 1) cap := by
  simp [pushBounded]; omega

theorem foldl_pushBounded {α : Type} (cap : ℕ) (ys : List α) :
    ∀ xs : List α, xs.length ≤ cap →
      List.foldl (pushBounded cap) xs ys = (xs ++ ys).drop (xs.length + ys.length - cap) := by
  induction ys with
  | nil =>
    intro xs h
    simp [Nat.sub_eq_zero_of_le h]
  | cons y ys ih =>
    intro xs h
    rw [List.foldl_cons, ih _ (by rw [length_pushBounded]; omega), pushBounded_eq]
    have h2 : xs.length + 1 - cap ≤ (xs ++ [y]).length := by simp
    rw [← List.drop_append_of_le_length h2, List.drop_drop, List.append_assoc,
      List.singleton_append]
    congr 1
    simp only [List.length_drop, List.length_append, List.length_cons, List.length_nil,
      List.length_singleton]
    omega

theorem rhe_nonneg (q : ℚ) (h : 0 ≤ q) : 0 ≤ rhe q := by
  have hf : (0 : ℤ) ≤ ⌊q⌋ := Int.le_floor.mpr (by exact_mod_cast h)
  simp only [rhe]
  split_ifs <;> omega

theorem rhe_le (q : ℚ) (n : ℤ) (h : q ≤ n) : rhe q ≤ n := by
  have hf : ⌊q⌋ ≤ n := by
    have := Int.floor_le_floor h
    rwa [Int.floor_intCast] at this
  have hfl : (⌊q⌋ : ℚ) ≤ q := Int.floor_le q
  simp only [rhe]
  split_ifs with h1 h2 h3
  · exact hf
  · by_contra hc
    push_neg at hc
    have hn : n ≤ ⌊q⌋ := by omega
    have : (n : ℚ) ≤ (⌊q⌋ : ℚ) := by exact_mod_cast hn
    linarith
  · exact hf
  · by_contra hc
    push_neg at hc
    have hn : n ≤ ⌊q⌋ := by omega
    have : (n : ℚ) ≤ (⌊q⌋ : ℚ) := by exact_mod_cast hn
    linarith

theorem pyRound_nonneg (n : ℕ) (q : ℚ) (h : 0 ≤ q) : 0 ≤ pyRound n q := by
  apply div_nonneg _ (by positivity)
  exact_mod_cast rhe_nonneg _ (by positivity)

theorem pyRound_le_one (n : ℕ) (q : ℚ) (h : q ≤ 1) : pyRound n q ≤ 1 := by
  rw [pyRound, div_le_one (by positivity)]
  have h2 : q * 10 ^ n ≤ ((10 ^ n : ℤ) : ℚ) := by
    push_cast
    calc q * 10 ^ n ≤ 1 * 10 ^ n := by gcongr
    _ = 10 ^ n := one_mul _
  exact_mod_cast rhe_le _ _ h2

theorem countTrue_le_length (bs : List Bool) : countTrue bs ≤ bs.length := by
  induction bs with
  | nil => simp [countTrue]
  | cons b bs ih =>
    simp only [countTrue, List.map_cons, List.sum_cons, List.length_cons] at ih ⊢
    cases b <;> simp <;> omega

theorem strong_ofi_strength_nonneg (tbq tsq : ℚ) :
    0 ≤ (strong_calculate_ofi tbq tsq).strength := by
  simp only [strong_calculate_ofi]
  split_ifs <;> simp <;> exact pyRound_nonneg _ _ (by norm_num)

theorem strong_vs_strength_nonneg (s : SSAState) (v : ℤ) :
    0 ≤ (strong_calculate_volume_spike s v).1.strength := by
  simp only [strong_calculate_volume_spike]
  split_ifs <;> simp <;> exact pyRound_nonneg _ _ (by norm_num)

theorem greeks_score_of_strong (s : SSAState) (g d i : ℚ)
    (h : (analyze_greeks_strength s g d i).1.strength = "VERY_STRONG" ∨
         (analyze_greeks_strength s g d i).1.strength = "STRONG") :
    (5 : ℤ) ≤ (analyze_greeks_strength s g d i).1.score := by
  have hh : (if (analyze_greeks_strength s g d i).1.score ≥ 8 then "VERY_STRONG"
      else if (analyze_greeks_strength s g d i).1.score ≥ 5 then "STRONG"
      else "WEAK") = "VERY_STRONG" ∨
      (if (analyze_greeks_strength s g d i).1.score ≥ 8 then "VERY_STRONG"
      else if (analyze_greeks_strength s g d i).1.score ≥ 5 then "STRONG"
      else "WEAK") = "STRONG" := h
  split_ifs at hh with h1 h2 <;> simp_all <;> omega

theorem strongConfidenceScore_nonneg (s : SSAState) (t : Tick) :
    0 ≤ strongConfidenceScore s t := by
  simp only [strongConfidenceScore]
  have h1 := strong_ofi_strength_nonneg t.tbq t.tsq
  have h2 := strong_vs_strength_nonneg s (pyTrunc t.ltq)
  refine add_nonneg (add_nonneg (add_nonneg (add_nonneg (add_nonneg
    (add_nonneg ?_ ?_) ?_) ?_) ?_) ?_) ?_
  · split_ifs
    · exact mul_nonneg h1 (by norm_num)
    · norm_num
  · split_ifs
    · exact mul_nonneg h2 (by norm_num)
    · norm_num
  · split_ifs <;> norm_num
  · split_ifs with hc
    · have h5 := greeks_score_of_strong s t.gamma t.delta t.iv (of_decide_eq_true hc)
      have h0 : (0 : ℚ) ≤ ((analyze_greeks_strength s t.gamma t.delta t.iv).1.score : ℚ) := by
        exact_mod_cast le_trans (by norm_num) h5
      exact mul_nonneg h0 (by norm_num)
    · norm_num
  · split_ifs <;> norm_num
  · split_ifs <;> norm_num
  · split_ifs <;> norm_num

set_option maxRecDepth 8000 in
set_option maxHeartbeats 2000000 in
theorem ssaRun_volume (sym : String) (ts : List Tick) :
    ∀ s : SSAState, (ssaRun sym s ts).volume_history =
      List.foldl (pushBounded 60) s.volume_history (dupVol ts) := by
  induction ts with
  | nil => intro s; rfl
  | cons t ts ih =>
    intro s
    have e1 : ssaRun sym s (t :: ts) = ssaRun sym (ssa_analyze_tick s sym t).2 ts := rfl
    rw [e1, ih, ssa_analyze_tick_snd]
    rfl

theorem dupVol_length (ts : List Tick) : (dupVol ts).length = 2 * ts.length := by
  induction ts with
  | nil => rfl
  | cons t ts ih => simp [dupVol, ih]; omega

theorem dupVol_drop (m : ℕ) (ts : List Tick) :
    (dupVol ts).drop (2 * m) = dupVol (ts.drop m) := by
  induction ts generalizing m with
  | nil => simp [dupVol]
  | cons t ts ih =>
    cases m with
    | zero => simp
    | succ m =>
      have h2 : 2 * (m + 1) = 2 * m + 1 + 1 := by omega
      simp only [dupVol, h2, List.drop_succ_cons, List.drop]
      exact ih m

theorem bm_analyze_fst (st : BMState) (sym : String) (mff : MarketFF) :
    (bm_analyze st sym (some mff)).1 =
      some ⟨sym, bmScore st mff, bmAlert st mff,
        calculate_greeks_score mff.gamma mff.delta mff.iv⟩ := rfl

theorem alertLevel_spec (n : ℕ) :
    ((if n ≥ 75 then "CRITICAL" else if n ≥ 55 then "WARNING"
      else if n ≥ 35 then "WATCH" else "NORMAL") = "CRITICAL" ↔ 75 ≤ n)
    ∧ ((if n ≥ 75 then "CRITICAL" else if n ≥ 55 then "WARNING"
      else if n ≥ 35 then "WATCH" else "NORMAL") = "WARNING" ↔ 55 ≤ n ∧ n < 75)
    ∧ ((if n ≥ 75 then "CRITICAL" else if n ≥ 55 then "WARNING"
      else if n ≥ 35 then "WATCH" else "NORMAL") = "WATCH" ↔ 35 ≤ n ∧ n < 55)
    ∧ ((if n ≥ 75 then "CRITICAL" else if n ≥ 55 then "WARNING"
      else if n ≥ 35 then "WATCH" else "NORMAL") = "NORMAL" ↔ n < 35) := by
  split_ifs with h1 h2 h3 <;> simp [String.reduceEq] <;> omega

set_option maxHeartbeats 2000000 in
theorem wBuy1_count : countTrue (buyConds wSA1 wTick1) = 3 := by
  norm_num [buyConds, calculate_ofi, calculate_volume_spike, pushBounded, pyTrunc,
    pyRound, rhe, listAvg, countTrue, wSA1, wTick1, SAState.init]

set_option maxHeartbeats 4000000 in
theorem wStrong3_count : countTrue (strongConds wSSA3 wTick3) = 5 := by
  norm_num [strongConds, strong_calculate_ofi, strong_calculate_volume_spike,
    strong_calculate_momentum, analyze_greeks_strength, uptrendCount, trendUp,
    pushBounded, pyTrunc, pyRound, rhe, listAvg, countTrue, wSSA3, wTick3, SSAState.init]
  decide

set_option maxHeartbeats 4000000 in
theorem wStrong4_count : countTrue (strongConds wSSA3 wTick4) = 4 := by
  norm_num [strongConds, strong_calculate_ofi, strong_calculate_volume_spike,
    strong_calculate_momentum, analyze_greeks_strength, uptrendCount, trendUp,
    pushBounded, pyTrunc, pyRound, rhe, listAvg, countTrue, wSSA3, wTick4, SSAState.init]
  decide

set_option maxHeartbeats 4000000 in
theorem wStrong3_scs : strongConfidenceScore wSSA3 wTick3 = 62 := by
  norm_num [strongConfidenceScore, strong_calculate_ofi, strong_calculate_volume_spike,
    strong_calculate_momentum, analyze_greeks_strength, uptrendCount, trendUp,
    pushBounded, pyTrunc, pyRound, rhe, listAvg, wSSA3, wTick3, SSAState.init,
    String.reduceEq]
  simp only [String.reduceEq, or_self, if_false]
  norm_num

set_option maxHeartbeats 2000000 in
theorem wBuy1_emitted : (check_buy_signal wSA1 "X" wTick1).1 = some wBuy1 := by
  have h1 : pyRound 2 wTick1.ltp = 110 := by norm_num [wTick1, pyRound, rhe]
  have h2 : pyRound 2 ((countTrue (buyConds wSA1 wTick1) : ℚ) / 5) = 3/5 := by
    rw [wBuy1_count]
    norm_num [pyRound, rhe]
  rw [check_buy_signal_fst, if_pos (by rw [wBuy1_count]), h1, h2, wBuy1_count]
  rfl

set_option maxHeartbeats 4000000 in
theorem wStrong1_emitted :
    (check_strong_buy_signal wSSA3 "X" wTick3).1 = some wStrong1 := by
  have h1 : pyRound 2 wTick3.ltp = 110 := by norm_num [wTick3, pyRound, rhe]
  have h2 : pyRound 2 (min (strongConfidenceScore wSSA3 wTick3 / 100) 1) = 31/50 := by
    rw [wStrong3_scs]
    norm_num [pyRound, rhe, min_def]
  have h3 : (analyze_greeks_strength wSSA3 wTick3.gamma wTick3.delta wTick3.iv).1.gamma
      = 3/1000 := by
    norm_num [wTick3, analyze_greeks_strength, pushBounded, trendUp, pyRound, rhe, wSSA3,
      SSAState.init]
  have h4 : (analyze_greeks_strength wSSA3 wTick3.gamma wTick3.delta wTick3.iv).1.delta
      = 4/5 := by
    norm_num [wTick3, analyze_greeks_strength, pushBounded, trendUp, pyRound, rhe, wSSA3,
      SSAState.init]
  have h5 : (analyze_greeks_strength wSSA3 wTick3.gamma wTick3.delta wTick3.iv).1.iv
      = 0 := by
    norm_num [wTick3, analyze_greeks_strength, pushBounded, trendUp, pyRound, rhe, wSSA3,
      SSAState.init]
  have h6 : (strong_calculate_ofi wTick3.tbq wTick3.tsq).value = 4/5 := by
    norm_num [wTick3, strong_calculate_ofi, pyRound, rhe]
  have h7 : (strong_calculate_volume_spike wSSA3 (pyTrunc wTick3.ltq)).1.ratio = 1 := by
    norm_num [wTick3, strong_calculate_volume_spike, pushBounded, pyTrunc, wSSA3,
      SSAState.init]
  rw [check_strong_buy_signal_fst, if_pos (by rw [wStrong3_count]), h1, h2, h3, h4, h5,
    h6, h7, wStrong3_count]
  rfl

set_option maxHeartbeats 1000000 in
theorem wMFF_score :
    (bm_analyze ⟨none⟩ "X" (some wMFF)).1 = some ⟨"X", 83, "CRITICAL", 13⟩ := by
  rw [bm_analyze_fst]
  have hs : bmScore ⟨none⟩ wMFF = 83 := by
    norm_num [bmScore, bmVolumeRatio, bmObRatio, priceRangeOf, volumeFactor, rangeFactor,
      obFactor, calculate_greeks_score, wMFF, List.find?, String.reduceEq, abs]
  have ha : bmAlert ⟨none⟩ wMFF = "CRITICAL" := by
    rw [bmAlert, hs]
    norm_num
  have hg : calculate_greeks_score wMFF.gamma wMFF.delta wMFF.iv = 13 := by
    norm_num [calculate_greeks_score, wMFF, abs]
  rw [hs, ha, hg]

theorem wMFF_pair : bm_analyze ⟨none⟩ "X" (some wMFF) =
    (some ⟨"X", 83, "CRITICAL", 13⟩, (bm_analyze ⟨none⟩ "X" (some wMFF)).2) := by
  rw [← wMFF_score]

/-! ## Claim theorems -/

/-- C3: every per-symbol rolling window (price, volume, delta, gamma,
open-interest and OFI history) is a bounded ring buffer: a push never grows a
window beyond its capacity; after `capacity + 1` insertions into an empty
window the first-inserted element is evicted (the window is the tail of the
insertion sequence, so a first element not repeated later is no longer
present); and each analyzer operation updates its window exactly by
`pushBounded` at its fixed capacity. -/
theorem C3_window_capacity_eviction :
    (∀ (cap : ℕ) (xs : List ℚ) (x : ℚ), xs.length ≤ cap →
      (pushBounded cap xs x).length ≤ cap)
    ∧ (∀ (cap : ℕ) (ys : List ℚ), ys.length = cap + 1 →
      List.foldl (pushBounded cap) [] ys = ys.drop 1)
    ∧ (∀ (cap : ℕ) (y : ℚ) (ys : List ℚ), (y :: ys).length = cap + 1 → y ∉ ys →
      y ∉ List.foldl (pushBounded cap) [] (y :: ys))
    ∧ (∀ (s : SAState) (ltp : ℚ), (calculate_momentum s ltp).2.price_history =
      pushBounded s.lookback s.price_history ltp)
    ∧ (∀ (s : SAState) (v : ℤ), (calculate_volume_spike s v).2.volume_history =
      pushBounded 60 s.volume_history (v : ℚ))
    ∧ (∀ (s : SSAState) (ltp : ℚ), (strong_calculate_momentum s ltp).2.price_history =
      pushBounded s.lookback s.price_history ltp)
    ∧ (∀ (s : SSAState) (v : ℤ), (strong_calculate_volume_spike s v).2.volume_history =
      pushBounded 60 s.volume_history (v : ℚ))
    ∧ (∀ (s : SSAState) (g d i : ℚ),
      (analyze_greeks_strength s g d i).2.gamma_history = pushBounded 5 s.gamma_history g
      ∧ (analyze_greeks_strength s g d i).2.delta_history = pushBounded 5 s.delta_history d)
    ∧ (∀ (s : SSAState) (sym : String) (t : Tick),
      (check_strong_buy_signal s sym t).2.oi_history = pushBounded 5 s.oi_history t.oi
      ∧ (check_strong_buy_signal s sym t).2.ofi_history =
        pushBounded 5 s.ofi_history (strong_calculate_ofi t.tbq t.tsq).value) := by
  refine ⟨?_, ?_, ?_, ?_, ?_, ?_, ?_, ?_, ?_⟩
  · intro cap xs x h
    rw [length_pushBounded]
    omega
  · intro cap ys h
    rw [foldl_pushBounded _ _ [] (by simp)]
    simp [h]
  · intro cap y ys h hm
    rw [foldl_pushBounded _ _ [] (by simp)]
    simp only [List.length_cons, List.length_nil, List.nil_append, Nat.zero_add] at h ⊢
    rw [show ys.length + 1 - cap = 1 by omega]
    simpa using hm
  · intro s ltp
    rw [calculate_momentum_snd]
  · intro s v
    rw [calculate_volume_spike_snd]
  · intro s ltp
    rw [strong_calculate_momentum_snd]
  · intro s v
    rw [strong_calculate_volume_spike_snd]
  · intro s g d i
    rw [analyze_greeks_strength_snd]
    exact ⟨rfl, rfl⟩
  · intro s sym t
    rw [check_strong_buy_signal_snd]
    exact ⟨rfl, rfl⟩

/-- Witness for C3 at capacity 2: pushing onto a full window keeps the bound,
and after 3 insertions into an empty capacity-2 window the first element is
gone. -/
theorem C3_window_capacity_eviction_witness :
    (pushBounded 2 [1, 2] 3).length ≤ 2
    ∧ (1 : ℚ) ∉ List.foldl (pushBounded 2) [] (1 :: [2, 3]) :=
  ⟨C3_window_capacity_eviction.1 2 [1, 2] 3 (by norm_num),
   C3_window_capacity_eviction.2.2.1 2 1 [2, 3] (by norm_num) (by norm_num)⟩

/-- C7: the feed connector's reconnect loop increments the retry counter and
clears the shared connectivity flag on every failed attempt, sleeps
`min(5 * attempt, 30)` seconds while attempts remain, clears `running` when
the maximum is reached; five consecutive failures from the start state reach
the terminal stopped state (loop guard false, disconnected), and a successful
connection resets the counter to zero with the flag connected. -/
theorem C7_reconnect_state_machine :
    (∀ s : ConnState,
      (onFailure s).1.retry_count = s.retry_count + 1
      ∧ (onFailure s).1.connected = false
      ∧ (s.retry_count + 1 < max_retries →
          (onFailure s).1.running = s.running
          ∧ (onFailure s).2 = min (5 * (s.retry_count + 1)) 30)
      ∧ (max_retries ≤ s.retry_count + 1 → (onFailure s).1.running = false))
    ∧ (∀ s : ConnState, (onConnect s).retry_count = 0 ∧ (onConnect s).connected = true)
    ∧ afterFailures 5 ConnState.start = ⟨false, 5, false⟩
    ∧ loopActive (afterFailures 5 ConnState.start) = false := by
  refine ⟨?_, ?_, by decide, by decide⟩
  · intro s
    simp only [onFailure]
    split_ifs with h
    · exact ⟨rfl, rfl, fun _ => ⟨rfl, rfl⟩, fun hc => by omega⟩
    · exact ⟨rfl, rfl, fun hc => absurd hc h, fun _ => rfl⟩
  · intro s
    exact ⟨rfl, rfl⟩

/-- Witness for C7: a second consecutive failure (retry counter 1) keeps the
loop alive and waits `min(5 * 2, 30) = 10` seconds. -/
theorem C7_reconnect_state_machine_witness :
    (onFailure ⟨true, 1, false⟩).1.running = true
    ∧ (onFailure ⟨true, 1, false⟩).2 = min (5 * 2) 30 :=
  (C7_reconnect_state_machine.1 ⟨true, 1, false⟩).2.2.1 (by decide)

/-- C8: a subscriber queue of capacity 100 never blocks the publisher (a
publish is a total bounded append) and publishing 150 events into an empty
queue leaves exactly the 100 most recent events, in arrival order: the
oldest 50 are dropped. -/
theorem C8_bounded_queue_publish {α : Type} :
    ∀ events : List α, events.length = 150 →
      publishAll [] events = events.drop 50
      ∧ (publishAll [] events).length = 100 := by
  intro events h
  have e : publishAll ([] : List α) events = events.drop 50 := by
    rw [publishAll, foldl_pushBounded _ _ [] (by simp)]
    simp [h]
  exact ⟨e, by rw [e]; simp [h]⟩

/-- Witness for C8: publishing the 150 events `0, ..., 149` leaves the queue
holding `50, ..., 149`. -/
theorem C8_bounded_queue_publish_witness :
    publishAll [] (List.range 150) = (List.range 150).drop 50
    ∧ (publishAll [] (List.range 150)).length = 100 :=
  C8_bounded_queue_publish (List.range 150) (by simp)

/-- C10: one strict `analyze_tick` call appends the tick's volume, price,
delta and gamma to their windows twice (once from the direct indicator calls,
once from the repeated calls inside `check_strong_buy_signal`) while OI and
OFI history are appended once; one lenient `analyze_tick` call appends the
volume twice and the price once; consequently, over any tick stream the
strict analyzer's capacity-60 volume window holds the duplicated volumes of
only the most recent 30 ticks and reaches its fill threshold of 10 entries
after 5 ticks (length `min(2 * k, 60)` after `k` ticks). -/
theorem C10_double_append :
    (∀ (s : SSAState) (sym : String) (t : Tick),
      (ssa_analyze_tick s sym t).2 =
        { s with
          volume_history := pushBounded 60 (pushBounded 60 s.volume_history
            ((pyTrunc t.ltq : ℤ) : ℚ)) ((pyTrunc t.ltq : ℤ) : ℚ),
          price_history := pushBounded s.lookback
            (pushBounded s.lookback s.price_history t.ltp) t.ltp,
          gamma_history := pushBounded 5 (pushBounded 5 s.gamma_history t.gamma) t.gamma,
          delta_history := pushBounded 5 (pushBounded 5 s.delta_history t.delta) t.delta,
          oi_history := pushBounded 5 s.oi_history t.oi,
          ofi_history := pushBounded 5 s.ofi_history (strong_calculate_ofi t.tbq t.tsq).value,
          tick_count := s.tick_count + 1 + 1 })
    ∧ (∀ (s : SAState) (sym : String) (t : Tick),
      (sa_analyze_tick s sym t).2 =
        { s with
          price_history := pushBounded s.lookback s.price_history t.ltp,
          volume_history := pushBounded 60 (pushBounded 60 s.volume_history
            ((pyTrunc t.ltq : ℤ) : ℚ)) ((pyTrunc t.ltq : ℤ) : ℚ),
          delta_history := pushBounded 5 s.delta_history t.delta,
          oi_history := pushBounded 5 s.oi_history t.oi,
          tick_count := s.tick_count + 1 + 1 })
    ∧ (∀ (sym : String) (lookback : ℕ) (ts : List Tick),
      (ssaRun sym (SSAState.init lookback) ts).volume_history =
        dupVol (ts.drop (ts.length - 30)))
    ∧ (∀ (sym : String) (lookback : ℕ) (ts : List Tick),
      (ssaRun sym (SSAState.init lookback) ts).volume_history.length =
        min (2 * ts.length) 60) := by
  have key : ∀ (sym : String) (lookback : ℕ) (ts : List Tick),
      (ssaRun sym (SSAState.init lookback) ts).volume_history =
        dupVol (ts.drop (ts.length - 30)) := by
    intro sym lookback ts
    rw [ssaRun_volume]
    have h0 : (SSAState.init lookback).volume_history = [] := rfl
    rw [h0, foldl_pushBounded _ _ [] (by simp)]
    simp only [List.nil_append, List.length_nil, Nat.zero_add, dupVol_length]
    rw [show 2 * ts.length - 60 = 2 * (ts.length - 30) by omega, dupVol_drop]
  refine ⟨ssa_analyze_tick_snd, sa_analyze_tick_snd, key, ?_⟩
  intro sym lookback ts
  rw [key, dupVol_length, List.length_drop]
  omega

/-- C4 (counterexample): the claim that `to_num` never returns NaN or
Infinity is false on the code — the two signal analyzers pass a NaN numeric
input through unchanged, and the big-move detector's NaN guard (`n != n`)
does not catch Infinity. -/
theorem C4_to_num_nonfinite_counterexample :
    sa_to_num (.vnum .nan) = .nan
    ∧ ssa_to_num (.vnum .nan) = .nan
    ∧ bm_to_num (.vnum .inf) = .inf
    ∧ (sa_to_num (.vnum .nan)).isFinite = false :=
  ⟨rfl, rfl, rfl, rfl⟩

/-- C4 (amended): all three `to_num` coercions return 0.0 for missing
(`None`), empty-string, or non-numeric input; the big-move detector's
variant additionally substitutes 0.0 for a NaN result (but lets Infinity
through), while the two signal analyzers return any parsed float — finite or
not — unchanged. -/
theorem C4_to_num_coercion :
    (∀ v : PyVal, v.isNonNumeric = true →
      sa_to_num v = .finite 0 ∧ ssa_to_num v = .finite 0 ∧ bm_to_num v = .finite 0)
    ∧ (∀ f : PyFloat, sa_to_num (.vnum f) = f ∧ ssa_to_num (.vnum f) = f)
    ∧ (∀ v : PyVal, bm_to_num v ≠ .nan) := by
  refine ⟨?_, fun f => ⟨rfl, rfl⟩, ?_⟩
  · intro v hv
    cases v with
    | vstr parsed => cases parsed <;> simp_all [PyVal.isNonNumeric, sa_to_num, ssa_to_num, bm_to_num]
    | _ => simp_all [PyVal.isNonNumeric, sa_to_num, ssa_to_num, bm_to_num]
  · intro v
    cases v with
    | vstr parsed => cases parsed with
      | none => simp [bm_to_num]
      | some f => cases f <;> simp [bm_to_num]
    | vnum f => cases f <;> simp [bm_to_num]
    | _ => simp [bm_to_num]

/-- Witness for C4: the `None` input is coerced to 0.0 by all three
variants. -/
theorem C4_to_num_coercion_witness :
    sa_to_num .vnone = .finite 0 ∧ ssa_to_num .vnone = .finite 0
    ∧ bm_to_num .vnone = .finite 0 :=
  C4_to_num_coercion.1 .vnone rfl

/-- C9 (counterexample): the composite scorer's `calculate_greeks_score` does
not reuse the strict analyzer's Greeks rubric — on gamma 0.003, delta 0.8,
IV 0.25 with identical (empty) trend history the strict analyzer scores 7
while the composite rubric scores 13. -/
theorem C9_greeks_rubric_counterexample :
    (analyze_greeks_strength (SSAState.init 10) (3/1000) (8/10) (1/4)).1.score ≠
      (calculate_greeks_score (3/1000) (8/10) (1/4) : ℤ)
    ∧ (analyze_greeks_strength (SSAState.init 10) (3/1000) (8/10) (1/4)).1.score = 7
    ∧ calculate_greeks_score (3/1000) (8/10) (1/4) = 13 := by
  have h1 : (analyze_greeks_strength (SSAState.init 10) (3/1000) (8/10) (1/4)).1.score = 7 := by
    norm_num [analyze_greeks_strength, SSAState.init, pushBounded, trendUp]
  have h2 : calculate_greeks_score (3/1000) (8/10) (1/4) = 13 := by
    norm_num [calculate_greeks_score, abs]
  refine ⟨?_, h1, h2⟩
  rw [h1, h2]
  decide

/-- C9 (amended): the composite scorer's Greeks sub-score follows its own
gamma / delta / IV rubric with range 0-15 (it is capped at 15 and its three
contributions are the non-negative steps 5/3/1/0); it does not reuse the
strict analyzer's `analyze_greeks_strength` rubric. -/
theorem C9_greeks_score_bound :
    ∀ g d i : ℚ, calculate_greeks_score g d i ≤ 15 := by
  intro g d i
  exact min_le_right _ _

/-- C5: in both engines, `calculate_momentum` returns its neutral / weak
result when the symbol had no recorded prices (so the window holds fewer than
2 entries even after the current price is appended), and whenever the price
window's average is zero the momentum value is 0 — the division is
special-cased away, so the value is always a (finite) rational. -/
theorem C5_momentum_guards :
    (∀ (s : SAState) (ltp : ℚ), s.price_history = [] →
      (calculate_momentum s ltp).1 = ⟨0, "NEUTRAL", ltp⟩)
    ∧ (∀ (s : SAState) (ltp : ℚ),
      listAvg (pushBounded s.lookback s.price_history ltp) = 0 →
      (calculate_momentum s ltp).1.value = 0)
    ∧ (∀ (s : SSAState) (ltp : ℚ), s.price_history = [] →
      (strong_calculate_momentum s ltp).1 = ⟨0, "WEAK", "NONE"⟩)
    ∧ (∀ (s : SSAState) (ltp : ℚ),
      listAvg (pushBounded s.lookback s.price_history ltp) = 0 →
      (strong_calculate_momentum s ltp).1.value = 0) := by
  have hlen : ∀ (cap : ℕ) (x : ℚ), (pushBounded cap ([] : List ℚ) x).length ≤ 1 := by
    intro cap x
    rw [length_pushBounded]
    simp only [List.length_nil]
    omega
  have hpr : pyRound 5 0 = 0 := by
    simp [pyRound, rhe]
  refine ⟨?_, ?_, ?_, ?_⟩
  · intro s ltp h
    simp only [calculate_momentum, h]
    rw [if_pos (by have := hlen s.lookback ltp; omega)]
  · intro s ltp h
    simp only [calculate_momentum]
    split_ifs with h1 h2 <;> simp_all [hpr]
  · intro s ltp h
    simp only [strong_calculate_momentum, h]
    rw [if_pos (by have := hlen s.lookback ltp; omega)]
  · intro s ltp h
    simp only [strong_calculate_momentum]
    split_ifs with h1 h2 <;> simp_all [hpr]

/-- Witness for C5: with no recorded prices the lenient momentum is neutral,
and a zero-average window (prices 0) yields momentum value 0 in both
engines. -/
theorem C5_momentum_guards_witness :
    (calculate_momentum (SAState.init 5) 7).1 = ⟨0, "NEUTRAL", 7⟩
    ∧ (calculate_momentum { SAState.init 5 with price_history := [0] } 0).1.value = 0
    ∧ (strong_calculate_momentum (SSAState.init 10) 7).1 = ⟨0, "WEAK", "NONE"⟩
    ∧ (strong_calculate_momentum
        { SSAState.init 10 with price_history := [0, 0, 0, 0] } 0).1.value = 0 :=
  ⟨C5_momentum_guards.1 (SAState.init 5) 7 rfl,
   C5_momentum_guards.2.1 { SAState.init 5 with price_history := [0] } 0
     (by norm_num [SAState.init, pushBounded, listAvg]),
   C5_momentum_guards.2.2.1 (SSAState.init 10) 7 rfl,
   C5_momentum_guards.2.2.2 { SSAState.init 10 with price_history := [0, 0, 0, 0] } 0
     (by norm_num [SSAState.init, pushBounded, listAvg])⟩

/-- C6: every emitted signal's confidence lies in [0, 1]; the lenient
engine's confidence is the satisfied-condition count over the accumulation
ceiling 5, and the strict engine's is the weighted accumulation of the
satisfied conditions' strengths divided by the ceiling 100 and clamped
at 1. -/
theorem C6_confidence_bounds :
    (∀ (s : SAState) (sym : String) (t : Tick) (b : BuySignal),
      (check_buy_signal s sym t).1 = some b →
        b.confidence = pyRound 2 ((countTrue (buyConds s t) : ℚ) / 5)
        ∧ 0 ≤ b.confidence ∧ b.confidence ≤ 1)
    ∧ (∀ (s : SSAState) (sym : String) (t : Tick) (b : StrongBuySignal),
      (check_strong_buy_signal s sym t).1 = some b →
        b.confidence = pyRound 2 (min (strongConfidenceScore s t / 100) 1)
        ∧ 0 ≤ b.confidence ∧ b.confidence ≤ 1) := by
  constructor
  · intro s sym t b hb
    rw [check_buy_signal_fst] at hb
    split_ifs at hb with h
    have hb2 := Option.some.inj hb
    have hc5 : countTrue (buyConds s t) ≤ 5 := by
      have := countTrue_le_length (buyConds s t)
      simpa [buyConds] using this
    have hq : (0 : ℚ) ≤ (countTrue (buyConds s t) : ℚ) / 5 := by positivity
    have hq1 : (countTrue (buyConds s t) : ℚ) / 5 ≤ 1 := by
      rw [div_le_one (by norm_num)]
      exact_mod_cast hc5
    refine ⟨by rw [← hb2], ?_, ?_⟩
    · rw [← hb2]
      exact pyRound_nonneg _ _ hq
    · rw [← hb2]
      exact pyRound_le_one _ _ hq1
  · intro s sym t b hb
    rw [check_strong_buy_signal_fst] at hb
    split_ifs at hb with h
    have hb2 := Option.some.inj hb
    have hS := strongConfidenceScore_nonneg s t
    have hq : (0 : ℚ) ≤ min (strongConfidenceScore s t / 100) 1 :=
      le_min (by positivity) zero_le_one
    have hq1 : min (strongConfidenceScore s t / 100) 1 ≤ 1 := min_le_right _ _
    refine ⟨by rw [← hb2], ?_, ?_⟩
    · rw [← hb2]
      exact pyRound_nonneg _ _ hq
    · rw [← hb2]
      exact pyRound_le_one _ _ hq1

set_option maxRecDepth 8000 in
/-- C1: the lenient `check_buy_signal` emits a BUY signal exactly when at
least 3 of its 5 conditions are satisfied; the strict
`check_strong_buy_signal` emits a STRONG_BUY exactly when at least 5 of its
7 conditions are satisfied (in particular, with exactly 4 satisfied nothing
is emitted); and the strict analyzer's `analyze_tick` result always carries
`sell = none`. -/
theorem C1_signal_quorum :
    (∀ (s : SAState) (sym : String) (t : Tick),
      ((check_buy_signal s sym t).1.isSome ↔ 3 ≤ countTrue (buyConds s t))
      ∧ (∀ b, (check_buy_signal s sym t).1 = some b → b.action = "BUY"))
    ∧ (∀ (s : SSAState) (sym : String) (t : Tick),
      ((check_strong_buy_signal s sym t).1.isSome ↔ 5 ≤ countTrue (strongConds s t))
      ∧ (countTrue (strongConds s t) = 4 → (check_strong_buy_signal s sym t).1 = none)
      ∧ (∀ b, (check_strong_buy_signal s sym t).1 = some b → b.action = "STRONG_BUY")
      ∧ (ssa_analyze_tick s sym t).1.sell = none) := by
  constructor
  · intro s sym t
    constructor
    · rw [check_buy_signal_fst]
      split_ifs with h <;> simp [h]
    · intro b hb
      rw [check_buy_signal_fst] at hb
      split_ifs at hb
      rw [← Option.some.inj hb]
  · intro s sym t
    refine ⟨?_, ?_, ?_, rfl⟩
    · rw [check_strong_buy_signal_fst]
      split_ifs with h <;> simp [h]
    · intro h4
      rw [check_strong_buy_signal_fst, if_neg (by omega)]
    · intro b hb
      rw [check_strong_buy_signal_fst] at hb
      split_ifs at hb
      rw [← Option.some.inj hb]

/-- Witness for C1: on the concrete scenarios, 3 satisfied lenient conditions
emit a BUY, 5 satisfied strict conditions emit a STRONG_BUY, and the same
strict scenario with the breakout condition broken (4 of 7) emits nothing. -/
theorem C1_signal_quorum_witness :
    (check_buy_signal wSA1 "X" wTick1).1.isSome
    ∧ (check_strong_buy_signal wSSA3 "X" wTick3).1.isSome
    ∧ (check_strong_buy_signal wSSA3 "X" wTick4).1 = none :=
  ⟨(C1_signal_quorum.1 wSA1 "X" wTick1).1.mpr (by rw [wBuy1_count]),
   (C1_signal_quorum.2 wSSA3 "X" wTick3).1.mpr (by rw [wStrong3_count]),
   (C1_signal_quorum.2 wSSA3 "X" wTick4).2.1 wStrong4_count⟩

/-- C2: the composite `analyze` always yields a score in [0, 100] — each of
the four factors is independently capped (volume 35, price range 30, order
book 20, Greeks 15) — and the alert tier is CRITICAL exactly when the score
is at least 75, WARNING on [55, 75), WATCH on [35, 55), NORMAL below 35.
The score is a natural number, so 0 ≤ score holds by type. -/
theorem C2_composite_score_bounds :
    (∀ q : ℚ, volumeFactor q ≤ 35)
    ∧ (∀ q : ℚ, rangeFactor q ≤ 30)
    ∧ (∀ q : ℚ, obFactor q ≤ 20)
    ∧ (∀ g d i : ℚ, calculate_greeks_score g d i ≤ 15)
    ∧ (∀ (st : BMState) (sym : String) (feed : Option MarketFF) (r : BMResult) (st2 : BMState),
        bm_analyze st sym feed = (some r, st2) →
          r.score ≤ 100
          ∧ (r.alertLevel = "CRITICAL" ↔ 75 ≤ r.score)
          ∧ (r.alertLevel = "WARNING" ↔ 55 ≤ r.score ∧ r.score < 75)
          ∧ (r.alertLevel = "WATCH" ↔ 35 ≤ r.score ∧ r.score < 55)
          ∧ (r.alertLevel = "NORMAL" ↔ r.score < 35)) := by
  refine ⟨?_, ?_, ?_, ?_, ?_⟩
  · intro q
    simp only [volumeFactor]
    split_ifs <;> omega
  · intro q
    simp only [rangeFactor]
    split_ifs <;> omega
  · intro q
    simp only [obFactor]
    split_ifs <;> omega
  · intro g d i
    exact min_le_right _ _
  · intro st sym feed r st2 h
    have h1 := congrArg Prod.fst h
    cases feed with
    | none => exact absurd h1 (by simp [bm_analyze])
    | some mff =>
      rw [bm_analyze_fst] at h1
      simp only [Option.some.injEq] at h1
      subst h1
      exact ⟨min_le_right _ _, (alertLevel_spec _).1, (alertLevel_spec _).2.1,
        (alertLevel_spec _).2.2.1, (alertLevel_spec _).2.2.2⟩

/-- Witness for C2: the concrete feed `wMFF` scores 83 (in bounds) and is
classified CRITICAL, consistently with the 75 threshold. -/
theorem C2_composite_score_bounds_witness :
    (⟨"X", 83, "CRITICAL", 13⟩ : BMResult).score ≤ 100
    ∧ ((⟨"X", 83, "CRITICAL", 13⟩ : BMResult).alertLevel = "CRITICAL"
        ↔ 75 ≤ (⟨"X", 83, "CRITICAL", 13⟩ : BMResult).score) :=
  ⟨(C2_composite_score_bounds.2.2.2.2 ⟨none⟩ "X" (some wMFF) ⟨"X", 83, "CRITICAL", 13⟩
      (bm_analyze ⟨none⟩ "X" (some wMFF)).2 wMFF_pair).1,
   (C2_composite_score_bounds.2.2.2.2 ⟨none⟩ "X" (some wMFF) ⟨"X", 83, "CRITICAL", 13⟩
      (bm_analyze ⟨none⟩ "X" (some wMFF)).2 wMFF_pair).2.1⟩

/-- Witness for C6: the BUY and STRONG_BUY signals emitted on the concrete
scenarios have confidence 0.6 and 0.62, both inside [0, 1]. -/
theorem C6_confidence_bounds_witness :
    (0 ≤ wBuy1.confidence ∧ wBuy1.confidence ≤ 1)
    ∧ (0 ≤ wStrong1.confidence ∧ wStrong1.confidence ≤ 1) :=
  ⟨⟨(C6_confidence_bounds.1 wSA1 "X" wTick1 wBuy1 wBuy1_emitted).2.1,
    (C6_confidence_bounds.1 wSA1 "X" wTick1 wBuy1 wBuy1_emitted).2.2⟩,
   ⟨(C6_confidence_bounds.2 wSSA3 "X" wTick3 wStrong1 wStrong1_emitted).2.1,
    (C6_confidence_bounds.2 wSSA3 "X" wTick3 wStrong1 wStrong1_emitted).2.2⟩⟩

end Python01
